import Mathlib

/-! Verification of the gradient-policy core (mjpc/planners/gradient/policy.cc).

The policy stores time-tagged knot vectors and reconstructs a clamped action at
any query time by interpolation.  Real-valued program data (C++ doubles) is
modelled over the rationals.  The interval-search, interpolation and clamp
kernels and the reference-trajectory type live outside the provided source
file; they are modelled from the specification and marked as such below. -/

namespace mjpc

/-- Modelled from the spec: the representation selector, one of
Hold / Linear / Smooth; constructor names follow the source usage
(kZeroSpline, kLinearSpline, kCubicSpline). -/
inductive PolicyRepresentation where
  | kZeroSpline
  | kLinearSpline
  | kCubicSpline
  deriving DecidableEq

/-- The part of the MuJoCo model read by the policy: the actuator count
(nu) and the per-actuator control range, one (lo, hi) pair per actuator. -/
structure mjModel where
  nu : Nat
  actuator_ctrlrange : List (ℚ × ℚ)
  deriving DecidableEq

/-- Modelled from the spec: the reference trajectory is an owned value-type
snapshot, opaque to this core; it supports Reset(horizon) and value copy.
We record the horizon it was last reset to. -/
structure Trajectory where
  horizon : Nat
  deriving DecidableEq

/-- Modelled from the spec: Trajectory.Reset sets the trajectory back to the
given horizon. -/
def Trajectory.Reset (_tr : Trajectory) (horizon : Nat) : Trajectory :=
  { horizon := horizon }

/-- std::fill(v.begin(), v.begin() + n, 0.0): zero the first n stored entries.
Fill positions past the stored capacity are dropped (the C++ performs an
unchecked out-of-bounds write there). -/
def zeroFirst : Nat → List ℚ → List ℚ
  | 0, xs => xs
  | _ + 1, [] => []
  | n + 1, _ :: xs => 0 :: zeroFirst n xs

/-- mju_copy(dst, src, n): overwrite the first n entries of dst with the first
n entries of src, keeping the rest of dst.  Positions past either stored
capacity are dropped (the C++ performs an unchecked out-of-bounds access
there). -/
def copyFirst : Nat → List ℚ → List ℚ → List ℚ
  | 0, _, dst => dst
  | _ + 1, [], dst => dst
  | _ + 1, _ :: _, [] => []
  | n + 1, s :: src, _ :: dst => s :: copyFirst n src dst

/-- The i-th knot vector of the flattened parameter array: nu consecutive
entries starting at nu * i. -/
def knotVector (params : List ℚ) (nu i : Nat) : List ℚ :=
  (params.drop (nu * i)).take nu

/-- Modelled from the spec: FindInterval(bounds, times, t, length) locates a
bracketing index pair (i0, i1) in times[0..length) with
times[i0] ≤ t ≤ times[i1], and saturates to the nearest boundary index,
returned twice, when t lies outside the active time range; it never indexes
out of bounds. -/
def FindInterval (times : List ℚ) (t : ℚ) (length : Nat) : Nat × Nat :=
  if length ≤ 1 then (0, 0)
  else if t ≤ times.getD 0 0 then (0, 0)
  else if times.getD (length - 1) 0 ≤ t then (length - 1, length - 1)
  else
    let i0 := (List.range (length - 1)).foldl
      (fun acc i => if times.getD i 0 ≤ t then i else acc) 0
    (i0, i0 + 1)

/-- Modelled from the spec: zero-order hold — the output is the knot vector at
the lower bracketing index, verbatim. -/
def ZeroInterpolation (t : ℚ) (times params : List ℚ) (nu length : Nat) :
    List ℚ :=
  knotVector params nu (FindInterval times t length).1

/-- One linearly blended output vector: each of the nu components mixes the
knot vectors at indices i0 and i1 with the normalized position of t inside
the bracketing time interval. -/
def linearBlend (t : ℚ) (times params : List ℚ) (nu i0 i1 : Nat) : List ℚ :=
  (List.range nu).map fun d =>
    (1 - (t - times.getD i0 0) / (times.getD i1 0 - times.getD i0 0)) *
        params.getD (nu * i0 + d) 0 +
      (t - times.getD i0 0) / (times.getD i1 0 - times.getD i0 0) *
        params.getD (nu * i1 + d) 0

/-- Modelled from the spec: piecewise-linear interpolation — each output
component is the linear blend of the bracketing knot vectors, weighted by the
normalized position of t inside the bracketing time interval; a degenerate
bracket holds the lower knot. -/
def LinearInterpolation (t : ℚ) (times params : List ℚ) (nu length : Nat) :
    List ℚ :=
  if (FindInterval times t length).1 = (FindInterval times t length).2 then
    knotVector params nu (FindInterval times t length).1
  else
    linearBlend t times params nu (FindInterval times t length).1
      (FindInterval times t length).2

/-- Modelled from the spec: smooth (C1) local interpolation — a cubic Hermite
blend through the bracketing knot pair with slopes estimated from the
neighboring knots, degrading to the linear rule on the first and last active
segment and to a hold on a degenerate bracket. -/
def CubicInterpolation (t : ℚ) (times params : List ℚ) (nu length : Nat) :
    List ℚ :=
  let b := FindInterval times t length
  if b.1 = b.2 then knotVector params nu b.1
  else if b.1 = 0 ∨ b.2 = length - 1 then
    LinearInterpolation t times params nu length
  else
    let t0 := times.getD b.1 0
    let t1 := times.getD b.2 0
    let dt := t1 - t0
    let s := (t - t0) / dt
    (List.range nu).map fun d =>
      let y0 := params.getD (nu * b.1 + d) 0
      let y1 := params.getD (nu * b.2 + d) 0
      let m0 := ((y1 - y0) / dt +
        (y0 - params.getD (nu * (b.1 - 1) + d) 0) /
          (t0 - times.getD (b.1 - 1) 0)) / 2
      let m1 := ((params.getD (nu * (b.2 + 1) + d) 0 - y1) /
          (times.getD (b.2 + 1) 0 - t1) + (y1 - y0) / dt) / 2
      (2 * s ^ 3 - 3 * s ^ 2 + 1) * y0 + (s ^ 3 - 2 * s ^ 2 + s) * dt * m0 +
        (-2 * s ^ 3 + 3 * s ^ 2) * y1 + (s ^ 3 - s ^ 2) * dt * m1

/-- Saturation of one value into one actuator range: mju_min(hi, mju_max(lo, x)). -/
def clip (lo hi x : ℚ) : ℚ :=
  min hi (max lo x)

/-- Modelled from the spec: Clamp(action, ranges, nu) independently clips each
of the nu output components into its actuator range. -/
def Clamp (action : List ℚ) (ctrlrange : List (ℚ × ℚ)) (nu : Nat) : List ℚ :=
  (List.range nu).map fun i =>
    clip (ctrlrange.getD i (0, 0)).1 (ctrlrange.getD i (0, 0)).2
      (action.getD i 0)

/-- GradientPolicy (planners/gradient/policy.h state written by policy.cc):
model handle, owned reference trajectory, action-improvement buffer k,
spline parameters and their update buffer, knot times, and the scalar
configuration fields. -/
structure GradientPolicy where
  model : mjModel
  trajectory : Trajectory
  k : List ℚ
  parameters : List ℚ
  parameter_update : List ℚ
  times : List ℚ
  num_parameters : Nat
  num_spline_points : Nat
  representation : PolicyRepresentation
  deriving DecidableEq

/-- GradientPolicy::Reset (policy.cc lines 61-72): reset the trajectory and
zero the active prefixes of k, parameters, parameter_update and times.  The
source performs no capacity check on the horizon. -/
def GradientPolicy.Reset (p : GradientPolicy) (horizon : Nat) :
    GradientPolicy :=
  { p with
    trajectory := p.trajectory.Reset horizon
    k := zeroFirst (horizon * p.model.nu) p.k
    parameters := zeroFirst (p.model.nu * horizon) p.parameters
    parameter_update := zeroFirst (p.model.nu * horizon) p.parameter_update
    times := zeroFirst horizon p.times }

/-- GradientPolicy::Action, pre-clamp part (policy.cc lines 77-93): find the
bracketing interval, then dispatch on a degenerate bracket and the configured
representation. -/
def GradientPolicy.preClampAction (p : GradientPolicy) (time : ℚ) : List ℚ :=
  if (FindInterval p.times time p.num_spline_points).1 =
      (FindInterval p.times time p.num_spline_points).2 ∨
      p.representation = PolicyRepresentation.kZeroSpline then
    ZeroInterpolation time p.times p.parameters p.model.nu p.num_spline_points
  else
    match p.representation with
    | PolicyRepresentation.kLinearSpline =>
        LinearInterpolation time p.times p.parameters p.model.nu
          p.num_spline_points
    | PolicyRepresentation.kCubicSpline =>
        CubicInterpolation time p.times p.parameters p.model.nu
          p.num_spline_points
    | PolicyRepresentation.kZeroSpline =>
        ZeroInterpolation time p.times p.parameters p.model.nu
          p.num_spline_points

/-- GradientPolicy::Action (policy.cc lines 75-97): interpolate, then clamp
the controls to the actuator ranges. -/
def GradientPolicy.Action (p : GradientPolicy) (time : ℚ) : List ℚ :=
  Clamp (p.preClampAction time) p.model.actuator_ctrlrange p.model.nu

/-- GradientPolicy::CopyFrom (policy.cc lines 100-120): copy the trajectory,
the first horizon * nu entries of k, the first source num_parameters entries
of parameters and parameter_update, the first source num_spline_points knot
times, and the three scalar fields. -/
def GradientPolicy.CopyFrom (p : GradientPolicy) (policy : GradientPolicy)
    (horizon : Nat) : GradientPolicy :=
  { p with
    trajectory := policy.trajectory
    k := copyFirst (horizon * p.model.nu) policy.k p.k
    parameters := copyFirst policy.num_parameters policy.parameters
      p.parameters
    parameter_update := copyFirst policy.num_parameters
      policy.parameter_update p.parameter_update
    times := copyFirst policy.num_spline_points policy.times p.times
    num_spline_points := policy.num_spline_points
    num_parameters := policy.num_parameters
    representation := policy.representation }

/-- GradientPolicy::CopyParametersFrom (policy.cc lines 123-129): overwrite
the first num_spline_points * nu parameter entries and the first
num_spline_points knot times from the supplied sequences, using the
destination's own num_spline_points. -/
def GradientPolicy.CopyParametersFrom (p : GradientPolicy)
    (src_parameters src_times : List ℚ) : GradientPolicy :=
  { p with
    parameters := copyFirst (p.num_spline_points * p.model.nu) src_parameters
      p.parameters
    times := copyFirst p.num_spline_points src_times p.times }

/-! Helper lemmas about the buffer primitives. -/

theorem zeroFirst_getD_lt : ∀ (n : Nat) (xs : List ℚ) (i : Nat), i < n →
    (zeroFirst n xs).getD i 0 = 0
  | 0, _, _, h => absurd h (Nat.not_lt_zero _)
  | _ + 1, [], _, _ => by simp [zeroFirst]
  | _ + 1, _ :: _, 0, _ => rfl
  | n + 1, _ :: xs, i + 1, h => by
    simpa [zeroFirst] using zeroFirst_getD_lt n xs i (Nat.lt_of_succ_lt_succ h)

theorem zeroFirst_getD_ge : ∀ (n : Nat) (xs : List ℚ) (i : Nat) (d : ℚ),
    n ≤ i → (zeroFirst n xs).getD i d = xs.getD i d
  | 0, _, _, _, _ => rfl
  | _ + 1, [], _, _, _ => by simp [zeroFirst]
  | n + 1, _ :: xs, i, d, h => by
    cases i with
    | zero => exact absurd h (Nat.not_succ_le_zero n)
    | succ i =>
      simpa [zeroFirst] using
        zeroFirst_getD_ge n xs i d (Nat.le_of_succ_le_succ h)

theorem copyFirst_getD_lt : ∀ (n : Nat) (src dst : List ℚ) (i : Nat) (d : ℚ),
    i < n → n ≤ src.length → n ≤ dst.length →
    (copyFirst n src dst).getD i d = src.getD i d
  | 0, _, _, _, _, hi, _, _ => absurd hi (Nat.not_lt_zero _)
  | _ + 1, [], _, _, _, _, hs, _ => by simp at hs
  | _ + 1, _ :: _, [], _, _, _, _, hd => by simp at hd
  | _ + 1, _ :: _, _ :: _, 0, _, _, _, _ => rfl
  | n + 1, s :: src, x :: dst, i + 1, d, hi, hs, hd => by
    simpa [copyFirst] using
      copyFirst_getD_lt n src dst i d (Nat.lt_of_succ_lt_succ hi)
        (Nat.le_of_succ_le_succ hs) (Nat.le_of_succ_le_succ hd)

theorem copyFirst_getD_ge : ∀ (n : Nat) (src dst : List ℚ) (i : Nat) (d : ℚ),
    n ≤ i → (copyFirst n src dst).getD i d = dst.getD i d
  | 0, _, _, _, _, _ => rfl
  | _ + 1, [], _, _, _, _ => rfl
  | _ + 1, _ :: _, [], _, _, _ => by simp [copyFirst]
  | n + 1, s :: src, x :: dst, i, d, h => by
    cases i with
    | zero => exact absurd h (Nat.not_succ_le_zero n)
    | succ i =>
      simpa [copyFirst] using
        copyFirst_getD_ge n src dst i d (Nat.le_of_succ_le_succ h)

theorem knotVector_getD (params : List ℚ) (nu i d : Nat) (v : ℚ)
    (hd : d < nu) :
    (knotVector params nu i).getD d v = params.getD (nu * i + d) v := by
  rw [knotVector, List.getD_eq_getElem?_getD, List.getElem?_take_of_lt hd,
    List.getElem?_drop, ← List.getD_eq_getElem?_getD]

theorem Clamp_getD (action : List ℚ) (cr : List (ℚ × ℚ)) (nu i : Nat)
    (h : i < nu) :
    (Clamp action cr nu).getD i 0 =
      clip (cr.getD i (0, 0)).1 (cr.getD i (0, 0)).2 (action.getD i 0) := by
  simp [Clamp, List.getD_eq_getElem?_getD, List.getElem?_map,
    List.getElem?_range h]

theorem Clamp_congr (a b : List ℚ) (cr : List (ℚ × ℚ)) (nu : Nat)
    (h : ∀ i, i < nu → a.getD i 0 = b.getD i 0) :
    Clamp a cr nu = Clamp b cr nu := by
  unfold Clamp
  exact List.map_congr_left fun i hi => by rw [h i (List.mem_range.mp hi)]

theorem clip_le_hi (lo hi x : ℚ) : clip lo hi x ≤ hi :=
  min_le_left _ _

theorem lo_le_clip (lo hi x : ℚ) (h : lo ≤ hi) : lo ≤ clip lo hi x :=
  le_min h (le_max_left _ _)

/-! Helper lemmas about the interval search. -/

theorem FindInterval_low (times : List ℚ) (t : ℚ) (length : Nat)
    (h : length ≤ 1 ∨ t ≤ times.getD 0 0) :
    FindInterval times t length = (0, 0) := by
  unfold FindInterval
  rcases h with h | h
  · rw [if_pos h]
  · by_cases h1 : length ≤ 1
    · rw [if_pos h1]
    · rw [if_neg h1, if_pos h]

theorem FindInterval_high (times : List ℚ) (t : ℚ) (length : Nat)
    (h1 : ¬ length ≤ 1) (h2 : ¬ t ≤ times.getD 0 0)
    (h3 : times.getD (length - 1) 0 ≤ t) :
    FindInterval times t length = (length - 1, length - 1) := by
  unfold FindInterval
  rw [if_neg h1, if_neg h2, if_pos h3]

theorem FindInterval_flat (times : List ℚ) (t : ℚ) (length : Nat)
    (h : times.getD 0 0 = times.getD (length - 1) 0) :
    ∃ j, j ≤ length - 1 ∧ FindInterval times t length = (j, j) := by
  by_cases h1 : length ≤ 1
  · exact ⟨0, Nat.zero_le _, FindInterval_low times t length (Or.inl h1)⟩
  · by_cases h2 : t ≤ times.getD 0 0
    · exact ⟨0, Nat.zero_le _, FindInterval_low times t length (Or.inr h2)⟩
    · have h3 : times.getD (length - 1) 0 ≤ t := by
        rw [← h]; exact (lt_of_not_le h2).le
      exact ⟨length - 1, le_refl _, FindInterval_high times t length h1 h2 h3⟩

/-- If the interval search returns a degenerate bracket, or the policy holds,
the action is the clamped knot vector at the lower bracketing index. -/
theorem Action_hold_of (p : GradientPolicy) (t : ℚ)
    (h : (FindInterval p.times t p.num_spline_points).1 =
        (FindInterval p.times t p.num_spline_points).2 ∨
        p.representation = PolicyRepresentation.kZeroSpline) :
    p.Action t = Clamp (knotVector p.parameters p.model.nu
        (FindInterval p.times t p.num_spline_points).1)
      p.model.actuator_ctrlrange p.model.nu := by
  unfold GradientPolicy.Action GradientPolicy.preClampAction
  rw [if_pos h]
  rfl

/-- Saturation of the evaluation on the low side of the active time range:
below the first active knot time the result is the one at that time. -/
theorem Action_low_saturates (p : GradientPolicy) (t : ℚ)
    (h : t ≤ p.times.getD 0 0) :
    p.Action t = p.Action (p.times.getD 0 0) := by
  have e1 := FindInterval_low p.times t p.num_spline_points (Or.inr h)
  have e2 := FindInterval_low p.times (p.times.getD 0 0) p.num_spline_points
    (Or.inr (le_refl _))
  rw [Action_hold_of p t (Or.inl (by rw [e1])),
    Action_hold_of p _ (Or.inl (by rw [e2])), e1, e2]

/-- Saturation of the evaluation on the high side of the active time range,
for an active range that is a single knot or has strictly separated
endpoints. -/
theorem Action_high_saturates (p : GradientPolicy) (t : ℚ)
    (hflat : p.num_spline_points = 1 ∨
      p.times.getD 0 0 < p.times.getD (p.num_spline_points - 1) 0)
    (h : p.times.getD (p.num_spline_points - 1) 0 < t) :
    p.Action t = p.Action (p.times.getD (p.num_spline_points - 1) 0) := by
  rcases hflat with h1 | hsep
  · have e1 := FindInterval_low p.times t p.num_spline_points (Or.inl (by omega))
    have e2 := FindInterval_low p.times (p.times.getD (p.num_spline_points - 1) 0)
      p.num_spline_points (Or.inl (by omega))
    rw [Action_hold_of p t (Or.inl (by rw [e1])),
      Action_hold_of p _ (Or.inl (by rw [e2])), e1, e2]
  · have hlen : ¬ p.num_spline_points ≤ 1 := by
      intro hle
      have hz : p.num_spline_points - 1 = 0 := by omega
      rw [hz] at hsep
      exact lt_irrefl _ hsep
    have e1 := FindInterval_high p.times t p.num_spline_points hlen
      (not_le.mpr (lt_trans hsep h)) h.le
    have e2 := FindInterval_high p.times
      (p.times.getD (p.num_spline_points - 1) 0) p.num_spline_points hlen
      (not_le.mpr hsep) (le_refl _)
    rw [Action_hold_of p t (Or.inl (by rw [e1])),
      Action_hold_of p _ (Or.inl (by rw [e2])), e1, e2]

/-! Concrete policies used to instantiate the theorems. -/

/-- A one-actuator hold policy with knots at times 0 and 1. -/
def holdPolicy : GradientPolicy :=
  { model := { nu := 1, actuator_ctrlrange := [(-10, 10)] }
    trajectory := { horizon := 2 }
    k := [0, 0]
    parameters := [3, 4]
    parameter_update := [0, 0]
    times := [0, 1]
    num_parameters := 2
    num_spline_points := 2
    representation := PolicyRepresentation.kZeroSpline }

/-- A one-actuator hold policy whose two active knots carry equal times and
different parameters. -/
def tiePolicy : GradientPolicy :=
  { model := { nu := 1, actuator_ctrlrange := [(-10, 10)] }
    trajectory := { horizon := 2 }
    k := [0, 0]
    parameters := [3, 4]
    parameter_update := [5, 6]
    times := [1, 1]
    num_parameters := 2
    num_spline_points := 2
    representation := PolicyRepresentation.kZeroSpline }

/-! Claim theorems. -/

/-- Claim C1: whenever the interval search returns equal bracketing indices,
or the representation is the zero-order hold, the action is the knot vector
at the lower bracketing index, clamped per dimension, independently of the
configured representation. -/
theorem C1_hold_semantics (p : GradientPolicy) (t : ℚ)
    (_hn : 1 ≤ p.num_spline_points)
    (hb : (FindInterval p.times t p.num_spline_points).1 =
        (FindInterval p.times t p.num_spline_points).2 ∨
        p.representation = PolicyRepresentation.kZeroSpline) :
    p.Action t = Clamp (knotVector p.parameters p.model.nu
        (FindInterval p.times t p.num_spline_points).1)
      p.model.actuator_ctrlrange p.model.nu :=
  Action_hold_of p t hb

theorem C1_hold_semantics_witness :
    holdPolicy.Action (1/2) = Clamp (knotVector holdPolicy.parameters
        holdPolicy.model.nu
        (FindInterval holdPolicy.times (1/2) holdPolicy.num_spline_points).1)
      holdPolicy.model.actuator_ctrlrange holdPolicy.model.nu :=
  C1_hold_semantics holdPolicy (1/2) (by decide) (Or.inr rfl)

/-- Claim C2: every component of the action produced by Action lies inside
the per-actuator control range, whatever interpolation produced the
pre-clamp value. -/
theorem C2_action_in_range (p : GradientPolicy) (t : ℚ) (i : Nat)
    (hi : i < p.model.nu)
    (hr : (p.model.actuator_ctrlrange.getD i (0, 0)).1 ≤
      (p.model.actuator_ctrlrange.getD i (0, 0)).2) :
    (p.model.actuator_ctrlrange.getD i (0, 0)).1 ≤ (p.Action t).getD i 0 ∧
      (p.Action t).getD i 0 ≤
        (p.model.actuator_ctrlrange.getD i (0, 0)).2 := by
  unfold GradientPolicy.Action
  rw [Clamp_getD _ _ _ _ hi]
  exact ⟨lo_le_clip _ _ _ hr, clip_le_hi _ _ _⟩

theorem C2_action_in_range_witness :
    (holdPolicy.model.actuator_ctrlrange.getD 0 (0, 0)).1 ≤
        (holdPolicy.Action 7).getD 0 0 ∧
      (holdPolicy.Action 7).getD 0 0 ≤
        (holdPolicy.model.actuator_ctrlrange.getD 0 (0, 0)).2 :=
  C2_action_in_range holdPolicy 7 0 (by decide) (by decide)

/-- Claim C3 counterexample: a policy with two active knots at equal times
(a non-decreasing active time array) evaluates differently strictly above the
last active time and at the last active time, refuting the unrestricted
high-side saturation equation. -/
theorem C3_counterexample :
    1 ≤ tiePolicy.num_spline_points ∧
      tiePolicy.times.getD 0 0 ≤ tiePolicy.times.getD 1 0 ∧
      tiePolicy.times.getD (tiePolicy.num_spline_points - 1) 0 < 2 ∧
      tiePolicy.Action 2 ≠
        tiePolicy.Action
          (tiePolicy.times.getD (tiePolicy.num_spline_points - 1) 0) := by
  decide

/-- Claim C3 as amended: with at least one active knot, evaluation below the
first active time equals evaluation at the first active time; and provided
the active range is a single knot or has strictly separated endpoint times,
evaluation above the last active time equals evaluation at the last active
time. -/
theorem C3_saturating_lookup (p : GradientPolicy) (t : ℚ)
    (_hn : 1 ≤ p.num_spline_points) :
    (t < p.times.getD 0 0 → p.Action t = p.Action (p.times.getD 0 0)) ∧
      ((p.num_spline_points = 1 ∨
          p.times.getD 0 0 < p.times.getD (p.num_spline_points - 1) 0) →
        p.times.getD (p.num_spline_points - 1) 0 < t →
        p.Action t = p.Action (p.times.getD (p.num_spline_points - 1) 0)) :=
  ⟨fun h => Action_low_saturates p t h.le,
   fun hflat h => Action_high_saturates p t hflat h⟩

theorem C3_saturating_lookup_witness :
    ((-1 : ℚ) < holdPolicy.times.getD 0 0 →
      holdPolicy.Action (-1) = holdPolicy.Action (holdPolicy.times.getD 0 0)) ∧
      ((holdPolicy.num_spline_points = 1 ∨
          holdPolicy.times.getD 0 0 <
            holdPolicy.times.getD (holdPolicy.num_spline_points - 1) 0) →
        holdPolicy.times.getD (holdPolicy.num_spline_points - 1) 0 < -1 →
        holdPolicy.Action (-1) =
          holdPolicy.Action
            (holdPolicy.times.getD (holdPolicy.num_spline_points - 1) 0)) :=
  C3_saturating_lookup holdPolicy (-1) (by decide)

/-- Claim C4: after Reset to an active horizon covering the active knot set,
every evaluated action component is the per-dimension clamp of zero into the
actuator range. -/
theorem C4_reset_then_action (p : GradientPolicy) (h : Nat) (t : ℚ) (i : Nat)
    (hn : 1 ≤ p.num_spline_points) (hnh : p.num_spline_points ≤ h)
    (hi : i < p.model.nu) :
    ((p.Reset h).Action t).getD i 0 =
      clip (p.model.actuator_ctrlrange.getD i (0, 0)).1
        (p.model.actuator_ctrlrange.getD i (0, 0)).2 0 := by
  have hts : (p.Reset h).times.getD 0 0 =
      (p.Reset h).times.getD ((p.Reset h).num_spline_points - 1) 0 := by
    show (zeroFirst h p.times).getD 0 0 =
      (zeroFirst h p.times).getD (p.num_spline_points - 1) 0
    rw [zeroFirst_getD_lt h p.times 0 (by omega),
      zeroFirst_getD_lt h p.times (p.num_spline_points - 1) (by omega)]
  obtain ⟨j, hj, e⟩ := FindInterval_flat (p.Reset h).times t
    (p.Reset h).num_spline_points hts
  have hj1 : j ≤ p.num_spline_points - 1 := hj
  rw [Action_hold_of (p.Reset h) t (Or.inl (by rw [e])), e]
  have hi1 : i < (p.Reset h).model.nu := hi
  rw [Clamp_getD _ _ _ _ hi1, knotVector_getD _ _ _ _ _ hi1]
  have hz : ((p.Reset h).parameters).getD ((p.Reset h).model.nu * j + i) 0
      = 0 := by
    show (zeroFirst (p.model.nu * h) p.parameters).getD (p.model.nu * j + i) 0
      = 0
    refine zeroFirst_getD_lt _ _ _ ?_
    have h1 : p.model.nu * j + i < p.model.nu * (j + 1) := by
      rw [Nat.mul_succ]
      exact Nat.add_lt_add_left hi _
    have h2 : p.model.nu * (j + 1) ≤ p.model.nu * h :=
      Nat.mul_le_mul_left _ (by omega)
    exact lt_of_lt_of_le h1 h2
  rw [hz]
  rfl

theorem C4_reset_then_action_witness :
    ((tiePolicy.Reset 2).Action 5).getD 0 0 =
      clip (tiePolicy.model.actuator_ctrlrange.getD 0 (0, 0)).1
        (tiePolicy.model.actuator_ctrlrange.getD 0 (0, 0)).2 0 :=
  C4_reset_then_action tiePolicy 2 5 0 (by decide) (by decide) (by decide)

/-- Claim C5: Reset zeroes exactly the active prefixes of the improvement
buffer, the parameters and the knot times, and preserves every entry beyond
those prefixes. -/
theorem C5_reset_frame (p : GradientPolicy) (h mh : Nat) (_hh : h ≤ mh)
    (_hk : p.k.length = p.model.nu * mh)
    (_hp : p.parameters.length = p.model.nu * mh)
    (_ht : p.times.length = mh) :
    (∀ i, i < h * p.model.nu → (p.Reset h).k.getD i 0 = 0) ∧
      (∀ i, h * p.model.nu ≤ i → (p.Reset h).k.getD i 0 = p.k.getD i 0) ∧
      (∀ i, i < p.model.nu * h → (p.Reset h).parameters.getD i 0 = 0) ∧
      (∀ i, p.model.nu * h ≤ i →
        (p.Reset h).parameters.getD i 0 = p.parameters.getD i 0) ∧
      (∀ i, i < h → (p.Reset h).times.getD i 0 = 0) ∧
      (∀ i, h ≤ i → (p.Reset h).times.getD i 0 = p.times.getD i 0) :=
  ⟨fun _ hi => zeroFirst_getD_lt _ _ _ hi,
   fun _ hi => zeroFirst_getD_ge _ _ _ _ hi,
   fun _ hi => zeroFirst_getD_lt _ _ _ hi,
   fun _ hi => zeroFirst_getD_ge _ _ _ _ hi,
   fun _ hi => zeroFirst_getD_lt _ _ _ hi,
   fun _ hi => zeroFirst_getD_ge _ _ _ _ hi⟩

theorem C5_reset_frame_witness :
    (tiePolicy.Reset 1).k.getD 0 0 = 0 ∧
      (tiePolicy.Reset 1).k.getD 1 0 = tiePolicy.k.getD 1 0 ∧
      (tiePolicy.Reset 1).parameters.getD 0 0 = 0 ∧
      (tiePolicy.Reset 1).parameters.getD 1 0 =
        tiePolicy.parameters.getD 1 0 ∧
      (tiePolicy.Reset 1).times.getD 0 0 = 0 ∧
      (tiePolicy.Reset 1).times.getD 1 0 = tiePolicy.times.getD 1 0 := by
  have H := C5_reset_frame tiePolicy 1 2 (by decide) (by decide) (by decide)
    (by decide)
  exact ⟨H.1 0 (by decide), H.2.1 1 (by decide), H.2.2.1 0 (by decide),
    H.2.2.2.1 1 (by decide), H.2.2.2.2.1 0 (by decide),
    H.2.2.2.2.2 1 (by decide)⟩

/-- Claim C6: a horizon above the stored capacity is not rejected — the
embedded Reset completes normally on a capacity-2 policy at horizon 3,
zeroing what storage there is; the C++ performs the corresponding fill
writes past the end of the buffers without any capacity check. -/
theorem C6_reset_no_failfast :
    (tiePolicy.Reset 3).times = [0, 0] ∧
      (tiePolicy.Reset 3).parameters = [0, 0] ∧
      (tiePolicy.Reset 3).k = [0, 0] ∧
      (tiePolicy.Reset 3).parameter_update = [0, 0] := by
  decide

/-- Claim C10: Reset also zeroes exactly the active prefix of the
parameter-update buffer, preserving the entries beyond it. -/
theorem C10_reset_update (p : GradientPolicy) (h mh : Nat) (_hh : h ≤ mh)
    (_hu : p.parameter_update.length = p.model.nu * mh) :
    (∀ i, i < p.model.nu * h →
        (p.Reset h).parameter_update.getD i 0 = 0) ∧
      (∀ i, p.model.nu * h ≤ i →
        (p.Reset h).parameter_update.getD i 0 =
          p.parameter_update.getD i 0) :=
  ⟨fun _ hi => zeroFirst_getD_lt _ _ _ hi,
   fun _ hi => zeroFirst_getD_ge _ _ _ _ hi⟩

theorem C10_reset_update_witness :
    (tiePolicy.Reset 1).parameter_update.getD 0 0 = 0 ∧
      (tiePolicy.Reset 1).parameter_update.getD 1 0 =
        tiePolicy.parameter_update.getD 1 0 := by
  have H := C10_reset_update tiePolicy 1 2 (by decide) (by decide)
  exact ⟨H.1 0 (by decide), H.2 1 (by decide)⟩

theorem getD_map_range (f : Nat → ℚ) (nu d : Nat) (hd : d < nu) (v : ℚ) :
    ((List.range nu).map f).getD d v = f d := by
  rw [List.getD_eq_getElem?_getD, List.getElem?_map, List.getElem?_range hd]
  rfl

/-- On a non-degenerate bracket the linear interpolation is the blend of the
two bracketing knot vectors. -/
theorem LinearInterpolation_eq (t : ℚ) (times params : List ℚ)
    (nu length i0 i1 : Nat)
    (e : FindInterval times t length = (i0, i1)) (hne : i0 ≠ i1) :
    LinearInterpolation t times params nu length =
      linearBlend t times params nu i0 i1 := by
  unfold LinearInterpolation
  rw [e]
  exact if_neg hne

/-- A one-actuator linear policy with knots (0, 3) and (1, 5). -/
def linPolicy : GradientPolicy :=
  { model := { nu := 1, actuator_ctrlrange := [(-10, 10)] }
    trajectory := { horizon := 2 }
    k := [0, 0]
    parameters := [3, 5]
    parameter_update := [0, 0]
    times := [0, 1]
    num_parameters := 2
    num_spline_points := 2
    representation := PolicyRepresentation.kLinearSpline }

/-- Claim C7: a linear policy with exactly two active knots at times 0 and 1
carrying vectors P0 and P1 evaluates to the clamped midpoint (P0 + P1) / 2 at
time 1/2, to clamped P0 at time 0 and to clamped P1 at time 1. -/
theorem C7_linear_two_knots (p : GradientPolicy) (P0 P1 restP restT : List ℚ)
    (hrep : p.representation = PolicyRepresentation.kLinearSpline)
    (hn : p.num_spline_points = 2)
    (ht : p.times = 0 :: 1 :: restT)
    (hp : p.parameters = P0 ++ (P1 ++ restP))
    (h0 : P0.length = p.model.nu) (h1 : P1.length = p.model.nu) :
    p.Action (1/2) = Clamp ((List.range p.model.nu).map fun d =>
        (P0.getD d 0 + P1.getD d 0) / 2)
      p.model.actuator_ctrlrange p.model.nu ∧
      p.Action 0 = Clamp P0 p.model.actuator_ctrlrange p.model.nu ∧
      p.Action 1 = Clamp P1 p.model.actuator_ctrlrange p.model.nu := by
  have kv0 : knotVector p.parameters p.model.nu 0 = P0 := by
    rw [knotVector, hp, Nat.mul_zero, List.drop_zero, List.take_left' h0]
  have kv1 : knotVector p.parameters p.model.nu 1 = P1 := by
    rw [knotVector, hp, Nat.mul_one, List.drop_left' h0, List.take_left' h1]
  have e0 : FindInterval p.times 0 p.num_spline_points = (0, 0) := by
    rw [ht, hn]
    exact FindInterval_low _ _ _ (Or.inr (by norm_num))
  have e1 : FindInterval p.times 1 p.num_spline_points = (1, 1) := by
    rw [ht, hn]
    simpa using FindInterval_high (0 :: 1 :: restT) 1 2 (by omega)
      (by norm_num) (by norm_num)
  have eh : FindInterval p.times (1/2) p.num_spline_points = (0, 1) := by
    rw [ht, hn]
    unfold FindInterval
    rw [if_neg (by omega : ¬ (2 : Nat) ≤ 1),
      if_neg (show ¬ (1/2 : ℚ) ≤ (0 :: 1 :: restT : List ℚ).getD 0 0 by
        norm_num),
      if_neg (show ¬ ((0 :: 1 :: restT : List ℚ).getD (2 - 1) 0 ≤ 1/2) by
        norm_num)]
    rw [show List.range 1 = [0] from rfl]
    simp [List.foldl_cons, List.foldl_nil]
  have hcond : ¬ ((FindInterval p.times (1/2) p.num_spline_points).1 =
      (FindInterval p.times (1/2) p.num_spline_points).2 ∨
      p.representation = PolicyRepresentation.kZeroSpline) := by
    rw [eh, hrep]
    simp
  have ha2 : p.Action (1/2) = Clamp (LinearInterpolation (1/2) p.times
      p.parameters p.model.nu p.num_spline_points)
      p.model.actuator_ctrlrange p.model.nu := by
    unfold GradientPolicy.Action GradientPolicy.preClampAction
    rw [if_neg hcond, hrep]
  have hlin : LinearInterpolation (1/2) p.times p.parameters p.model.nu
      p.num_spline_points = linearBlend (1/2) p.times p.parameters
      p.model.nu 0 1 :=
    LinearInterpolation_eq _ _ _ _ _ _ _ eh (by omega)
  have hpoint : ∀ d, d < p.model.nu →
      (linearBlend (1/2) p.times p.parameters p.model.nu 0 1).getD d 0 =
        ((List.range p.model.nu).map fun d =>
          (P0.getD d 0 + P1.getD d 0) / 2).getD d 0 := by
    intro d hd
    rw [linearBlend, getD_map_range _ _ _ hd, getD_map_range _ _ _ hd]
    rw [ht, hp]
    simp only [Nat.mul_zero, Nat.zero_add, Nat.mul_one, List.getD_cons_zero,
      List.getD_cons_succ]
    rw [List.getD_append _ _ _ d (by omega),
      List.getD_append_right _ _ _ (p.model.nu + d) (by omega), h0,
      Nat.add_sub_cancel_left, List.getD_append _ _ _ d (by omega)]
    ring
  refine ⟨?_, ?_, ?_⟩
  · rw [ha2, hlin]
    exact Clamp_congr _ _ _ _ hpoint
  · rw [Action_hold_of p 0 (Or.inl (by rw [e0]))]
    simp only [e0]
    rw [kv0]
  · rw [Action_hold_of p 1 (Or.inl (by rw [e1]))]
    simp only [e1]
    rw [kv1]

theorem C7_linear_two_knots_witness :
    linPolicy.Action (1/2) = Clamp ((List.range linPolicy.model.nu).map
        fun d => (([3] : List ℚ).getD d 0 + ([5] : List ℚ).getD d 0) / 2)
      linPolicy.model.actuator_ctrlrange linPolicy.model.nu ∧
      linPolicy.Action 0 =
        Clamp [3] linPolicy.model.actuator_ctrlrange linPolicy.model.nu ∧
      linPolicy.Action 1 =
        Clamp [5] linPolicy.model.actuator_ctrlrange linPolicy.model.nu :=
  C7_linear_two_knots linPolicy [3] [5] [] [] rfl rfl rfl rfl (by decide)
    (by decide)

/-- Claim C8: CopyParametersFrom overwrites exactly the active prefixes of
parameters and times from the supplied sequences, with extents taken from the
destination's own active knot count, and leaves every other field and every
entry beyond those prefixes unchanged. -/
theorem C8_copy_parameters_frame (p : GradientPolicy) (sp st : List ℚ)
    (hsp : p.num_spline_points * p.model.nu ≤ sp.length)
    (hdp : p.num_spline_points * p.model.nu ≤ p.parameters.length)
    (hst : p.num_spline_points ≤ st.length)
    (hdt : p.num_spline_points ≤ p.times.length) :
    (∀ i, i < p.num_spline_points * p.model.nu →
        (p.CopyParametersFrom sp st).parameters.getD i 0 = sp.getD i 0) ∧
      (∀ i, p.num_spline_points * p.model.nu ≤ i →
        (p.CopyParametersFrom sp st).parameters.getD i 0 =
          p.parameters.getD i 0) ∧
      (∀ i, i < p.num_spline_points →
        (p.CopyParametersFrom sp st).times.getD i 0 = st.getD i 0) ∧
      (∀ i, p.num_spline_points ≤ i →
        (p.CopyParametersFrom sp st).times.getD i 0 = p.times.getD i 0) ∧
      (p.CopyParametersFrom sp st).representation = p.representation ∧
      (p.CopyParametersFrom sp st).num_parameters = p.num_parameters ∧
      (p.CopyParametersFrom sp st).num_spline_points = p.num_spline_points ∧
      (p.CopyParametersFrom sp st).k = p.k ∧
      (p.CopyParametersFrom sp st).parameter_update = p.parameter_update ∧
      (p.CopyParametersFrom sp st).trajectory = p.trajectory :=
  ⟨fun _ hi => copyFirst_getD_lt _ _ _ _ _ hi hsp hdp,
   fun _ hi => copyFirst_getD_ge _ _ _ _ _ hi,
   fun _ hi => copyFirst_getD_lt _ _ _ _ _ hi hst hdt,
   fun _ hi => copyFirst_getD_ge _ _ _ _ _ hi,
   rfl, rfl, rfl, rfl, rfl, rfl⟩

theorem C8_copy_parameters_frame_witness :
    (tiePolicy.CopyParametersFrom [7, 8] [2, 3]).parameters.getD 0 0 =
        ([7, 8] : List ℚ).getD 0 0 ∧
      (tiePolicy.CopyParametersFrom [7, 8] [2, 3]).parameters.getD 2 0 =
        tiePolicy.parameters.getD 2 0 ∧
      (tiePolicy.CopyParametersFrom [7, 8] [2, 3]).times.getD 1 0 =
        ([2, 3] : List ℚ).getD 1 0 ∧
      (tiePolicy.CopyParametersFrom [7, 8] [2, 3]).times.getD 2 0 =
        tiePolicy.times.getD 2 0 ∧
      (tiePolicy.CopyParametersFrom [7, 8] [2, 3]).representation =
        tiePolicy.representation ∧
      (tiePolicy.CopyParametersFrom [7, 8] [2, 3]).k = tiePolicy.k := by
  have H := C8_copy_parameters_frame tiePolicy [7, 8] [2, 3] (by decide)
    (by decide) (by decide) (by decide)
  exact ⟨H.1 0 (by decide), H.2.1 2 (by decide), H.2.2.1 1 (by decide),
    H.2.2.2.1 2 (by decide), H.2.2.2.2.1, H.2.2.2.2.2.2.2.1⟩

/-- A one-actuator source policy with distinctive buffer contents. -/
def srcPolicy : GradientPolicy :=
  { model := { nu := 1, actuator_ctrlrange := [(-10, 10)] }
    trajectory := { horizon := 5 }
    k := [7, 8]
    parameters := [9, 10]
    parameter_update := [11, 12]
    times := [2, 4]
    num_parameters := 2
    num_spline_points := 2
    representation := PolicyRepresentation.kCubicSpline }

/-- Claim C9: CopyFrom copies the source trajectory, the active improvement
prefix, the parameter and parameter-update prefixes of extent given by the
source's own num_parameters, the knot-time prefix of extent given by the
source's own num_spline_points, and the three scalar fields. -/
theorem C9_copy_from (p q : GradientPolicy) (h : Nat)
    (hk1 : h * p.model.nu ≤ q.k.length)
    (hk2 : h * p.model.nu ≤ p.k.length)
    (hp1 : q.num_parameters ≤ q.parameters.length)
    (hp2 : q.num_parameters ≤ p.parameters.length)
    (hu1 : q.num_parameters ≤ q.parameter_update.length)
    (hu2 : q.num_parameters ≤ p.parameter_update.length)
    (ht1 : q.num_spline_points ≤ q.times.length)
    (ht2 : q.num_spline_points ≤ p.times.length) :
    (p.CopyFrom q h).trajectory = q.trajectory ∧
      (∀ i, i < h * p.model.nu →
        (p.CopyFrom q h).k.getD i 0 = q.k.getD i 0) ∧
      (∀ i, i < q.num_parameters →
        (p.CopyFrom q h).parameters.getD i 0 = q.parameters.getD i 0) ∧
      (∀ i, i < q.num_parameters →
        (p.CopyFrom q h).parameter_update.getD i 0 =
          q.parameter_update.getD i 0) ∧
      (∀ i, i < q.num_spline_points →
        (p.CopyFrom q h).times.getD i 0 = q.times.getD i 0) ∧
      (p.CopyFrom q h).num_spline_points = q.num_spline_points ∧
      (p.CopyFrom q h).num_parameters = q.num_parameters ∧
      (p.CopyFrom q h).representation = q.representation :=
  ⟨rfl,
   fun _ hi => copyFirst_getD_lt _ _ _ _ _ hi hk1 hk2,
   fun _ hi => copyFirst_getD_lt _ _ _ _ _ hi hp1 hp2,
   fun _ hi => copyFirst_getD_lt _ _ _ _ _ hi hu1 hu2,
   fun _ hi => copyFirst_getD_lt _ _ _ _ _ hi ht1 ht2,
   rfl, rfl, rfl⟩

theorem C9_copy_from_witness :
    (holdPolicy.CopyFrom srcPolicy 2).trajectory = srcPolicy.trajectory ∧
      (holdPolicy.CopyFrom srcPolicy 2).k.getD 0 0 =
        srcPolicy.k.getD 0 0 ∧
      (holdPolicy.CopyFrom srcPolicy 2).parameters.getD 1 0 =
        srcPolicy.parameters.getD 1 0 ∧
      (holdPolicy.CopyFrom srcPolicy 2).parameter_update.getD 0 0 =
        srcPolicy.parameter_update.getD 0 0 ∧
      (holdPolicy.CopyFrom srcPolicy 2).times.getD 1 0 =
        srcPolicy.times.getD 1 0 ∧
      (holdPolicy.CopyFrom srcPolicy 2).num_spline_points =
        srcPolicy.num_spline_points ∧
      (holdPolicy.CopyFrom srcPolicy 2).num_parameters =
        srcPolicy.num_parameters ∧
      (holdPolicy.CopyFrom srcPolicy 2).representation =
        srcPolicy.representation := by
  have H := C9_copy_from holdPolicy srcPolicy 2 (by decide) (by decide)
    (by decide) (by decide) (by decide) (by decide) (by decide) (by decide)
  exact ⟨H.1, H.2.1 0 (by decide), H.2.2.1 1 (by decide),
    H.2.2.2.1 0 (by decide), H.2.2.2.2.1 1 (by decide), H.2.2.2.2.2.1,
    H.2.2.2.2.2.2.1, H.2.2.2.2.2.2.2⟩

end mjpc
